import Mathlib

/-!
# Verification of the MyDeskAI routing/decision pipeline

Shallow embedding of the decision pipeline of the MyDeskAI repository:
`command_recognizer.py`, `tool_selection_matrix.py`, `tools_registry.py`,
`tool_selector.py`, `decision_engine.py`, `agent_orchestrator.py`,
`error_handling_cascades.py` and `output_formatter.py`.

Strings are modelled as Lean `String` (a list of characters); Python's
float confidence scores are modelled as `ℚ` — every confidence value the
code can actually produce (1.0, 0.3, 0.5, 0.6, 0.4+0.1) is exactly
representable in binary floating point as well, so the rational model is
value-faithful on all reachable states.
-/

namespace MyDeskAI

/-! ## Python string primitives -/

/-- Lower-casing a string character by character (Python `str.lower` on
ASCII text; `Char.toLower` agrees with Python on ASCII). -/
def pyLower (s : String) : String := ⟨s.data.map Char.toLower⟩

/-- Python whitespace characters matched by `str.strip()` and `\s`. -/
def isPySpace (c : Char) : Bool :=
  c = ' ' || c = '\t' || c = '\n' || c = '\r' || c = '\x0b' || c = '\x0c'

/-- Python `str.strip()` on a character list. -/
def pyStripList (l : List Char) : List Char :=
  ((l.dropWhile isPySpace).reverse.dropWhile isPySpace).reverse

/-- Python `str.strip()`. -/
def pyStrip (s : String) : String := ⟨pyStripList s.data⟩

/-- Substring containment on character lists (Python `sub in s`). -/
def listContains (sub : List Char) : List Char → Bool
  | [] => sub.isEmpty
  | c :: rest => sub.isPrefixOf (c :: rest) || listContains sub rest

/-- Python `sub in s` for strings. -/
def pyIn (sub s : String) : Bool := listContains sub.data s.data

/-- Python `s.startswith(pre)`. -/
def pyStartsWith (s pre : String) : Bool := pre.data.isPrefixOf s.data

/-- A regex word character `\w` = `[A-Za-z0-9_]` (ASCII view). -/
def isWordChar (c : Char) : Bool := c.isAlphanum || c = '_'

/-- Does the literal word `w` followed by at least one whitespace
character (`w\s+`) match at the head of `s`? -/
def matchWordSpaceAt (w : List Char) (s : List Char) : Bool :=
  w.isPrefixOf s &&
    match s.drop w.length with
    | c :: _ => isPySpace c
    | [] => false

/-- Does any of the alternative words match (with trailing whitespace)
at the head of `s`? -/
def matchAnyWordAt (ws : List (List Char)) (s : List Char) : Bool :=
  ws.any (fun w => matchWordSpaceAt w s)

/-- Scan of `re.search(r"\b(w1|w2|...)\s+", s)`: `prevWord` records
whether the character before the current position is a word character
(all alternative words start with a word character, so `\b` holds at a
match position exactly when the preceding character is not one). -/
def searchWords (ws : List (List Char)) : Bool → List Char → Bool
  | _, [] => false
  | prevWord, c :: rest =>
    (!prevWord && matchAnyWordAt ws (c :: rest)) || searchWords ws (isWordChar c) rest

/-- Result of `re.search(r"\b(w1|...|wk)\s+", s) is not None` for a
word group. -/
def reSearch (ws : List String) (s : String) : Bool :=
  searchWords (ws.map String.data) false s.data

/-- Scanner for `re.findall(r"\.\w+", s)` match counting.  The flag
records whether the previous character was a dot that has not yet been
followed by a word character: a match is counted at the first word
character after a dot, and the greedy `\w+` run adds nothing further.
This left-to-right automaton counts exactly the non-overlapping
matches `re.findall` returns. -/
def countExtAux (afterDot : Bool) : List Char → Nat
  | [] => 0
  | c :: rest =>
    if c = '.' then countExtAux true rest
    else if isWordChar c then (if afterDot then 1 else 0) + countExtAux false rest
    else countExtAux false rest

/-- Number of non-overlapping matches of `re.findall(r"\.\w+", s)`:
a dot followed by a maximal non-empty run of word characters. -/
def countExtMatches (l : List Char) : Nat := countExtAux false l

/-! ## `command_recognizer.py` -/

/-- Enum `IntentType`. -/
inductive IntentType where
  | EXPLICIT_COMMAND
  | IMPLICIT_REQUEST
  | AMBIGUOUS
  | INITIALIZATION
  | GENERATION
  | DEBUGGING
  | TESTING
  | FILE_OPERATION
  | CODE_OPERATION
  | GIT_OPERATION
  | SEARCH
  | TERMINAL
deriving DecidableEq, Repr

/-- Table `CommandRecognizer.EXPLICIT_PATTERNS` (the word groups of
the regexes, in dict order). -/
def EXPLICIT_PATTERNS : List (List String) := [
  ["create", "make", "new", "add"],
  ["read", "show", "display", "view", "open", "cat"],
  ["write", "save", "update", "modify", "edit", "change"],
  ["delete", "remove", "rm", "del"],
  ["run", "execute", "start", "launch"],
  ["test", "spec", "check"],
  ["init", "initialize", "setup", "bootstrap"],
  ["fix", "debug", "repair", "resolve"]]

/-- Table `CommandRecognizer.IMPLICIT_PATTERNS`. -/
def IMPLICIT_PATTERNS : List (List String) := [
  ["need", "want", "require", "should have"],
  ["problem", "issue", "error", "bug", "broken", "not working"],
  ["improve", "better", "optimize", "enhance", "refactor"],
  ["add", "implement", "include"]]

/-- Table `CommandRecognizer.FILE_INDICATORS`. -/
def FILE_INDICATORS : List String :=
  ["file", "directory", "folder", "path", ".py", ".js", ".ts", ".md",
   ".json", ".yaml", ".yml", ".txt", ".csv", "read", "write", "save"]

/-- Table `CommandRecognizer.CODE_INDICATORS`. -/
def CODE_INDICATORS : List String :=
  ["code", "function", "class", "method", "component", "module",
   "programming", "implement", "generate", "create", "build"]

/-- Table `CommandRecognizer.GIT_INDICATORS`. -/
def GIT_INDICATORS : List String :=
  ["git", "commit", "push", "pull", "branch", "merge", "rebase",
   "stash", "tag", "remote", "repository", "repo"]

/-- Table `CommandRecognizer.SEARCH_INDICATORS`. -/
def SEARCH_INDICATORS : List String :=
  ["search", "find", "grep", "glob", "look for", "locate",
   "where is", "show me", "list"]

/-- Embeds `CommandRecognizer._determine_intent`. -/
def determine_intent (inputLower : String) (startsWithSlash : Bool) : IntentType :=
  if startsWithSlash then .EXPLICIT_COMMAND
  else if EXPLICIT_PATTERNS.any (fun ws => reSearch ws inputLower) then .EXPLICIT_COMMAND
  else if IMPLICIT_PATTERNS.any (fun ws => reSearch ws inputLower) then .IMPLICIT_REQUEST
  else if pyIn "init" inputLower || pyIn "initialize" inputLower || pyIn "setup" inputLower then
    .INITIALIZATION
  else if ["create", "generate", "make", "new"].any (fun w => pyIn w inputLower) then
    .GENERATION
  else if ["fix", "debug", "error", "bug"].any (fun w => pyIn w inputLower) then
    .DEBUGGING
  else if ["test", "spec", "check"].any (fun w => pyIn w inputLower) then
    .TESTING
  else .AMBIGUOUS

/-- Embeds `CommandRecognizer._calculate_confidence` (the two local
match counters of the Python code are inlined; both are pure). -/
def calculate_confidence (inputLower : String) (intent : IntentType) : ℚ :=
  if intent = .EXPLICIT_COMMAND then 1
  else if intent = .AMBIGUOUS then 3/10
  else if EXPLICIT_PATTERNS.countP (fun ws => reSearch ws inputLower) > 0 then
    min (4/5) (3/5 + (EXPLICIT_PATTERNS.countP (fun ws => reSearch ws inputLower) : ℚ)/10)
  else if IMPLICIT_PATTERNS.countP (fun ws => reSearch ws inputLower) > 0 then
    min (3/5) (2/5 + (IMPLICIT_PATTERNS.countP (fun ws => reSearch ws inputLower) : ℚ)/10)
  else 1/2

/-- Embeds `CommandRecognizer._detect_operation_type`. -/
def detect_operation_type (inputLower : String) : Option String :=
  if FILE_INDICATORS.any (fun w => pyIn w inputLower) then some "file_operation"
  else if CODE_INDICATORS.any (fun w => pyIn w inputLower) then some "code_operation"
  else if GIT_INDICATORS.any (fun w => pyIn w inputLower) then some "git_operation"
  else if SEARCH_INDICATORS.any (fun w => pyIn w inputLower) then some "search"
  else if ["run", "execute", "command", "bash", "shell"].any (fun w => pyIn w inputLower) then
    some "terminal"
  else none

/-- Embeds `CommandRecognizer._determine_routing`. -/
def determine_routing (confidence : ℚ) : String :=
  if confidence ≥ 4/5 then "execute_immediately"
  else if confidence ≥ 1/2 then "confirm_with_preview"
  else "present_options_menu"

/-- The classification dict built by `CommandRecognizer.classify_input`
(the `context` echo of `_evaluate_context` is metadata used by no claim
and is omitted). -/
structure Classification where
  intent : IntentType
  confidence : ℚ
  operation_type : Option String
  input : String
  requires_clarification : Bool
  routing : String
deriving DecidableEq, Repr

/-- Embeds `CommandRecognizer.classify_input`. -/
def classify_input (userInput : String) : Classification :=
  let inputLower := pyStrip (pyLower userInput)
  let startsWithSlash := pyStartsWith inputLower "/"
  let intent := determine_intent inputLower startsWithSlash
  let confidence := calculate_confidence inputLower intent
  { intent := intent
    confidence := confidence
    operation_type := detect_operation_type inputLower
    input := userInput
    requires_clarification := decide (confidence < 2/5)
    routing := determine_routing confidence }

/-! ## `tools_registry.py`

Tools are modelled by their class names.  `SHELL_TOOL_AVAILABLE` is
`True` in every run in which the matrix code is reachable:
`tool_selection_matrix.py` imports `ShellTool` from
`langchain_community.tools` unconditionally at module load, so whenever
`select_tools_for_task` exists the guarded import in `tools_registry.py`
succeeded as well.  Tool construction (`tool_class()`) is modelled as
succeeding; the `try/except` around it guards environment failures
outside the shallow embedding. -/

/-- Table `TOOL_SETS` of `tools_registry.py`, as lists of tool class
names (with `SHELL_TOOL_AVAILABLE = True`). -/
def TOOL_SETS : List (String × List String) := [
  ("file_operations", ["FileReadTool", "FileWriterTool", "DirectoryReadTool"]),
  ("shell_operations", ["ShellTool"]),
  ("code_analysis", ["FileReadTool", "CodeInterpreterTool", "CodeDocsSearchTool", "GithubSearchTool"]),
  ("web_research", ["SerperDevTool", "WebsiteSearchTool", "ScrapeWebsiteTool", "TavilySearchTool"]),
  ("comprehensive", ["FileReadTool", "FileWriterTool", "DirectoryReadTool", "SerperDevTool",
                     "CodeInterpreterTool", "WebsiteSearchTool", "GithubSearchTool", "ShellTool"]),
  ("minimal", ["FileReadTool"])]

/-- Embeds `get_tool_set` of `tools_registry.py`: unknown set names
give `[]`. -/
def get_tool_set (setName : String) : List String :=
  (TOOL_SETS.lookup setName).getD []

/-- The keys of `TOOL_CATEGORIES` in `tools_registry.py`, in dict
order (used by `ToolSelector.analyze_prompt` for literal mentions). -/
def TOOL_CATEGORY_KEYS : List String :=
  ["file_operations", "shell_operations", "file_format_search", "web_search",
   "web_scraping", "code_development", "database", "ai_ml_services",
   "automation", "media", "specialized"]

/-! ## `tool_selection_matrix.py` -/

/-- One entry of `ToolSelectionMatrix.TASK_TOOL_MAP`. -/
structure TaskConfig where
  primary : String
  secondary : List String
  conditions : String
  tool_set : String
deriving DecidableEq, Repr

/-- Table `ToolSelectionMatrix.TASK_TOOL_MAP`. -/
def TASK_TOOL_MAP : List (String × TaskConfig) := [
  ("create_single_file", ⟨"write", ["bash"], "Parent dir must exist", "file_operations"⟩),
  ("create_multiple_files", ⟨"write", ["bash"], "Related files", "file_operations"⟩),
  ("edit_single_file", ⟨"edit", ["write"], "<5 changes", "file_operations"⟩),
  ("edit_multiple_spots", ⟨"edit", ["write"], "Same file", "file_operations"⟩),
  ("read_file", ⟨"read", [], "Always use Read tool", "file_operations"⟩),
  ("delete_files", ⟨"bash", [], "With confirmation", "shell_operations"⟩),
  ("search_by_name", ⟨"glob", ["bash"], "Pattern matching", "file_operations"⟩),
  ("search_by_content", ⟨"grep", ["bash"], "Text in files", "file_operations"⟩),
  ("complex_search", ⟨"task", ["glob", "grep"], "Multi-step exploration", "comprehensive"⟩),
  ("generate_code", ⟨"write", ["code_interpreter"], "Code generation", "code_analysis"⟩),
  ("analyze_code", ⟨"read", ["code_interpreter", "github_search"], "Code analysis", "code_analysis"⟩),
  ("run_commands", ⟨"bash", [], "Check sandbox", "shell_operations"⟩),
  ("install_packages", ⟨"bash", [], "Detect package manager", "shell_operations"⟩),
  ("test_execution", ⟨"bash", [], "Platform-appropriate", "shell_operations"⟩),
  ("web_research", ⟨"web_search", ["web_fetch"], "Current information", "web_research"⟩),
  ("documentation_lookup", ⟨"web_fetch", ["web_search"], "Library docs", "web_research"⟩),
  ("git_operations", ⟨"bash", [], "Follow git practices", "shell_operations"⟩)]

/-- Embeds `ToolSelectionMatrix.select_tools_for_task`.  A fresh `ShellTool`
instance is appended when the primary or secondary capability mentions
bash; the `shell_tool not in tools` membership test compares pydantic
models field-wise, which on default-constructed tools is name equality. -/
def select_tools_for_task (taskType : String) : List String :=
  match TASK_TOOL_MAP.lookup taskType with
  | none => get_tool_set "comprehensive"
  | some cfg =>
    let tools := get_tool_set cfg.tool_set
    if cfg.primary = "bash" || cfg.secondary.contains "bash" then
      if tools.contains "ShellTool" then tools else tools ++ ["ShellTool"]
    else tools

/-- The branch structure of
`ToolSelectionMatrix.get_task_type_from_operation`, on the already
lowercased intent text `il`. -/
def taskTypeOfIntent (operationType : Option String) (il : String) : Option String :=
  if operationType = some "file_operation" then
    if pyIn "read" il || pyIn "show" il || pyIn "view" il then some "read_file"
    else if pyIn "write" il || pyIn "create" il || pyIn "make" il then some "create_single_file"
    else if pyIn "edit" il || pyIn "modify" il || pyIn "update" il then some "edit_single_file"
    else if pyIn "delete" il || pyIn "remove" il then some "delete_files"
    else if pyIn "search" il || pyIn "find" il then some "search_by_name"
    else none
  else if operationType = some "code_operation" then
    if pyIn "create" il || pyIn "generate" il then some "generate_code"
    else if pyIn "analyze" il || pyIn "review" il then some "analyze_code"
    else none
  else if operationType = some "git_operation" then some "git_operations"
  else if operationType = some "search" then
    if pyIn "grep" il || pyIn "content" il then some "search_by_content"
    else if pyIn "glob" il || pyIn "pattern" il then some "search_by_name"
    else some "complex_search"
  else if operationType = some "terminal" then
    if pyIn "install" il || pyIn "package" il then some "install_packages"
    else if pyIn "test" il then some "test_execution"
    else some "run_commands"
  else none

/-- Embeds `ToolSelectionMatrix.get_task_type_from_operation`:
lowercases the
intent text (`intent.lower()`) and walks the nested keyword checks. -/
def get_task_type_from_operation (operationType : Option String) (intent : String) :
    Option String :=
  taskTypeOfIntent operationType (pyLower intent)

/-! ## `tool_selector.py` -/

/-- Table `ToolSelector.KEYWORD_MAPPINGS`, in dict order. -/
def KEYWORD_MAPPINGS : List (String × List String) := [
  ("file_operations",
   ["read", "file", "write", "directory", "folder", "save", "load",
    ".py", ".md", ".txt", ".json", ".csv", ".yaml", ".yml",
    "filepath", "path", "open", "create", "delete", "edit"]),
  ("shell_operations",
   ["bash", "shell", "command", "grep", "glob", "terminal", "cli",
    "execute", "run", "find", "search", "pattern", "regex"]),
  ("file_format_search",
   ["search in", "find in", "csv", "pdf", "docx", "json", "xml",
    "markdown", "mdx", "txt", "within file"]),
  ("web_search",
   ["search", "google", "find information", "lookup", "research",
    "web", "internet", "online", "news", "scholar", "job"]),
  ("web_scraping",
   ["scrape", "crawl", "extract", "website", "url", "html",
    "webpage", "download", "fetch"]),
  ("code_development",
   ["code", "programming", "function", "class", "github", "repo",
    "repository", "debug", "execute code", "python", "javascript"]),
  ("database",
   ["database", "query", "sql", "mysql", "postgres", "mongodb",
    "vector", "search database", "db"]),
  ("ai_ml_services",
   ["image", "generate", "dall-e", "vision", "rag", "embedding",
    "llm", "model", "ai service"]),
  ("automation",
   ["automate", "workflow", "zapier", "composio", "integration",
    "api", "webhook"]),
  ("media",
   ["youtube", "video", "channel", "ocr", "image", "picture",
    "photo", "media"])]

/-- Python dict insertion-order update
`scores[cat] = scores.get(cat, 0) + delta`. -/
def bumpScore (scores : List (String × Nat)) (cat : String) (delta : Nat) :
    List (String × Nat) :=
  if scores.any (fun p => p.1 = cat) then
    scores.map (fun p => if p.1 = cat then (p.1, p.2 + delta) else p)
  else scores ++ [(cat, delta)]

/-- Python `max(scores, key=scores.get)` over a dict in insertion
order: the first key attaining the maximal value. -/
def firstMaxAux (best : String × Nat) : List (String × Nat) → String
  | [] => best.1
  | p :: rest => if p.2 > best.2 then firstMaxAux p rest else firstMaxAux best rest

/-- First key with maximal value, `none` on the empty dict. -/
def firstMax : List (String × Nat) → Option String
  | [] => none
  | p :: rest => some (firstMaxAux p rest)

/-- The result dict of `ToolSelector.analyze_prompt` (the
`matched_categories` echo is omitted: it is `category_scores.keys()`). -/
structure PromptAnalysis where
  primary_category : Option String
  category_scores : List (String × Nat)
  confidence : Nat
deriving DecidableEq, Repr

/-- Embeds `ToolSelector.analyze_prompt`. -/
def analyze_prompt (prompt : String) : PromptAnalysis :=
  let pl := pyLower prompt
  let scores0 := KEYWORD_MAPPINGS.filterMap (fun p =>
    let n := (p.2).countP (fun k => pyIn k pl)
    if n > 0 then some (p.1, n) else none)
  let primary0 := firstMax scores0
  let nExt := countExtMatches pl.data
  let scores1 := if nExt > 0 then bumpScore scores0 "file_operations" nExt else scores0
  let primary1 := if nExt > 0 ∧ primary0 = none then some "file_operations" else primary0
  let step := fun (acc : List (String × Nat) × Option String) (cat : String) =>
    if pyIn cat pl then
      (bumpScore acc.1 cat 5, if acc.2 = none then some cat else acc.2)
    else acc
  let final := TOOL_CATEGORY_KEYS.foldl step (scores1, primary1)
  { primary_category := final.2
    category_scores := final.1
    confidence := (final.1.map Prod.snd).foldr max 0 }

/-- Mapping of `ToolSelector`'s category → tool-set name mapping inside
`select_tools`. -/
def CATEGORY_TO_SET : List (String × String) := [
  ("file_operations", "file_operations"),
  ("shell_operations", "shell_operations"),
  ("code_development", "code_analysis"),
  ("web_search", "web_research")]

/-- Embeds `ToolSelector.select_tools`. -/
def select_tools (prompt : String) (maxTools : Nat) : List String :=
  let analysis := analyze_prompt prompt
  let tools :=
    if analysis.confidence ≥ 3 then
      match analysis.primary_category with
      | some cat =>
        match CATEGORY_TO_SET.lookup cat with
        | some setName => get_tool_set setName
        | none => []
      | none => []
    else []
  let tools := if tools.isEmpty then get_tool_set "comprehensive" else tools
  tools.take maxTools

/-! ## `decision_engine.py` -/

/-- The `execution_strategy` record of
`DecisionEngine._determine_execution_strategy`. -/
structure ExecutionStrategy where
  immediate_execution : Bool
  needs_confirmation : Bool
  needs_clarification : Bool
  parallel_possible : Bool
  estimated_complexity : String
deriving DecidableEq, Repr

/-- Embeds `DecisionEngine._determine_execution_strategy`. -/
def determine_execution_strategy (classification : Classification)
    (taskType : Option String) (tools : List String) : ExecutionStrategy :=
  let confidence := classification.confidence
  let operationType := classification.operation_type
  let complexity :=
    if operationType = some "file_operation" ∧
        (taskType = some "read_file" ∨ taskType = some "create_single_file") then "low"
    else if operationType = some "code_operation" ∨ taskType = some "generate_code" then "medium"
    else if tools.length > 3 ∨ taskType = some "complex_search" then "high"
    else "low"
  { immediate_execution := decide (confidence ≥ 4/5)
    needs_confirmation := decide (confidence < 4/5 ∧ confidence ≥ 1/2)
    needs_clarification := decide (confidence < 1/2)
    parallel_possible :=
      decide (taskType = some "create_multiple_files" ∨ taskType = some "complex_search")
    estimated_complexity := complexity }

/-- The decision dict of `DecisionEngine.process_request` (the
`parameters` echo of `extract_parameters` and the raw tool instances
are used by no claim and are omitted). -/
structure Decision where
  classification : Classification
  task_type : Option String
  selected_tools : List String
  execution_strategy : ExecutionStrategy
  requires_confirmation : Bool
  routing : String
deriving DecidableEq, Repr

/-- Embeds `DecisionEngine.process_request`. -/
def process_request (userInput : String) : Decision :=
  let classification := classify_input userInput
  let taskType :=
    get_task_type_from_operation classification.operation_type classification.input
  let tools :=
    match taskType with
    | some t => select_tools_for_task t
    | none => select_tools userInput 5
  { classification := classification
    task_type := taskType
    selected_tools := tools
    execution_strategy := determine_execution_strategy classification taskType tools
    requires_confirmation := decide (classification.confidence < 4/5)
    routing := classification.routing }

/-! ## `agent_orchestrator.py` -/

/-- The orchestration result of `AgentOrchestrator.orchestrate_task`
(the crew/task objects are external-framework handles; the shape and
the agent role list are kept). -/
structure OrchestrationPlan where
  orchestration_type : String
  agents : List String
deriving DecidableEq, Repr

/-- The shape selection of `AgentOrchestrator.orchestrate_task` on a
decision record: multi-agent when `estimated_complexity` is high or
medium, or `task_type` is `complex_search` or `analyze_code`. -/
def orchestration_shape (decision : Decision) : OrchestrationPlan :=
  if decision.execution_strategy.estimated_complexity = "high" ∨
      decision.execution_strategy.estimated_complexity = "medium" ∨
      decision.task_type = some "complex_search" ∨ decision.task_type = some "analyze_code" then
    { orchestration_type := "multi_agent"
      agents := ["planner", "file_reader", "code_analyst", "report_writer"] }
  else
    { orchestration_type := "single_agent", agents := ["test_agent"] }

/-- Embeds `AgentOrchestrator.orchestrate_task`: runs the decision
engine and selects the execution shape. -/
def orchestrate_task (userRequest : String) : OrchestrationPlan :=
  orchestration_shape (process_request userRequest)

/-! ## `error_handling_cascades.py` -/

/-- Enum `ErrorSeverity`. -/
inductive ErrorSeverity where
  | CRITICAL
  | HIGH
  | MEDIUM
  | LOW
deriving DecidableEq, Repr

/-- Embeds `ErrorHandler._assess_severity`, as a function of the exception's
type name (`type(error).__name__`) and stringified message
(`str(error)`). -/
def assess_severity (errorType : String) (errorMessage : String) : ErrorSeverity :=
  if ["system", "security", "breach", "corrupt"].any (fun k => pyIn k (pyLower errorMessage)) then
    .CRITICAL
  else if errorType = "SystemError" ∨ errorType = "MemoryError" ∨ errorType = "OSError" then
    .CRITICAL
  else if errorType = "RuntimeError" ∨ errorType = "ValueError" ∨ errorType = "KeyError" then
    .HIGH
  else if ["build", "crash", "fatal"].any (fun k => pyIn k (pyLower errorMessage)) then .HIGH
  else if errorType = "AttributeError" ∨ errorType = "TypeError" ∨ errorType = "ImportError" then
    .MEDIUM
  else .LOW

/-! ## `output_formatter.py` -/

/-- Python `row.get(h, "")` on a dict modelled as an association list. -/
def dictGet (row : List (String × String)) (k : String) : String :=
  (row.lookup k).getD ""

/-- Python `" | ".join(cells)`. -/
def joinCells : List String → String
  | [] => ""
  | [c] => c
  | c :: cs => c ++ " | " ++ joinCells cs

/-- One emitted table line `"| " + " | ".join(cells) + " |\n"`. -/
def tableLine (cells : List String) : String :=
  "| " ++ joinCells cells ++ " |\n"

/-- Sequential string accumulation (the `table += ...` loop). -/
def concatLines : List String → String
  | [] => ""
  | s :: rest => s ++ concatLines rest

/-- Embeds `OutputFormatter._format_table` on a list of dict records:
headers
come from the first record, data rows are capped at 20
(`content[:20]`).  For content that is not a non-empty list of dicts
the code returns `str(content)`; the empty-list case renders as
`str([])`. -/
def format_table (records : List (List (String × String))) : String :=
  match records with
  | [] => "[]"
  | first :: _ =>
    tableLine (first.map Prod.fst) ++
      tableLine ((first.map Prod.fst).map (fun _ => "---")) ++
      concatLines ((records.take 20).map (fun row =>
        tableLine ((first.map Prod.fst).map (fun h => dictGet row h))))

/-- Number of newline characters in a string.  Every line emitted by
`format_table` ends in `"\n"`, so on newline-free cell data this equals
the number of text lines (`str.splitlines()`). -/
def lineCount (s : String) : Nat := s.data.count '\n'

/-! ## Helper lemmas -/

/-- The estimated complexity of the execution strategy, written out as
the if-chain of `_determine_execution_strategy`. -/
theorem complexity_spec (cl : Classification) (taskType : Option String)
    (tools : List String) :
    (determine_execution_strategy cl taskType tools).estimated_complexity =
      if cl.operation_type = some "file_operation" ∧
          (taskType = some "read_file" ∨ taskType = some "create_single_file") then "low"
      else if cl.operation_type = some "code_operation" ∨ taskType = some "generate_code" then
        "medium"
      else if tools.length > 3 ∨ taskType = some "complex_search" then "high"
      else "low" := rfl

/-- Substring containment is preserved by mapping a function over both
lists (used for Python `str.lower`). -/
theorem listContains_map (f : Char → Char) (sub l : List Char)
    (h : listContains sub l = true) :
    listContains (sub.map f) (l.map f) = true := by
  induction l with
  | nil =>
    simp only [listContains, List.isEmpty_eq_true] at h
    simp [listContains, h]
  | cons c rest ih =>
    simp only [listContains, Bool.or_eq_true] at h
    rcases h with h | h
    · rw [ List.isPrefixOf_iff_prefix] at h
      simp only [List.map_cons, listContains, Bool.or_eq_true]
      left
      rw [ List.isPrefixOf_iff_prefix]
      simpa using h.map f
    · simp only [List.map_cons, listContains, Bool.or_eq_true]
      right
      exact ih h

/-- If the intent that `_determine_intent` returns is not
`EXPLICIT_COMMAND`, then no explicit pattern matched the input. -/
theorem no_explicit_match_of_intent_ne (L : String) (b : Bool)
    (h : determine_intent L b ≠ .EXPLICIT_COMMAND) :
    EXPLICIT_PATTERNS.any (fun ws => reSearch ws L) = false := by
  cases hx : EXPLICIT_PATTERNS.any (fun ws => reSearch ws L) with
  | false => rfl
  | true =>
    exfalso
    apply h
    unfold determine_intent
    cases b with
    | true => simp
    | false => simp [hx]

/-- If the intent is not `EXPLICIT_COMMAND`, the explicit-pattern match
counter of `_calculate_confidence` is zero (the branch
`min(0.8, 0.6 + 0.1·e)` is unreachable). -/
theorem explicit_countP_zero (L : String) (b : Bool)
    (h : determine_intent L b ≠ .EXPLICIT_COMMAND) :
    EXPLICIT_PATTERNS.countP (fun ws => reSearch ws L) = 0 := by
  have hx := no_explicit_match_of_intent_ne L b h
  rw [List.any_eq_false] at hx
  rw [List.countP_eq_zero]
  exact hx

/-- Confidence of any non-explicit intent is at most 0.6. -/
theorem confidence_le_of_not_explicit (L : String) (intent : IntentType)
    (hne : intent ≠ .EXPLICIT_COMMAND)
    (he : EXPLICIT_PATTERNS.countP (fun ws => reSearch ws L) = 0) :
    calculate_confidence L intent ≤ 3/5 := by
  unfold calculate_confidence
  rw [if_neg hne]
  by_cases ha : intent = .AMBIGUOUS
  · rw [if_pos ha]; norm_num
  · rw [if_neg ha, if_neg (by rw [he]; exact lt_irrefl 0)]
    split_ifs with hi
    · exact min_le_left _ _
    · norm_num

/-- Confidence of a non-explicit, non-ambiguous intent is at least 0.5. -/
theorem confidence_ge_half (L : String) (intent : IntentType)
    (h1 : intent ≠ .EXPLICIT_COMMAND) (h2 : intent ≠ .AMBIGUOUS)
    (he : EXPLICIT_PATTERNS.countP (fun ws => reSearch ws L) = 0) :
    1/2 ≤ calculate_confidence L intent := by
  unfold calculate_confidence
  rw [if_neg h1, if_neg h2, if_neg (by rw [he]; exact lt_irrefl 0)]
  split_ifs with hi
  · rw [le_min_iff]
    refine ⟨by norm_num, ?_⟩
    have hcast : (1 : ℚ) ≤ (IMPLICIT_PATTERNS.countP (fun ws => reSearch ws L) : ℚ) := by
      exact_mod_cast hi
    linarith
  · norm_num

/-! ## Claim theorems -/

/-- C1 (counterexample): the claim "estimated_complexity is high
whenever the selected tool count exceeds 3, even if task_type would
otherwise imply low" is false: with operation_type `file_operation` and
task_type `read_file` the first branch of the if/elif chain fires, so
the complexity is `low` even for a 4-element tool list. -/
theorem C1_counterexample :
    (["FileReadTool", "FileWriterTool", "DirectoryReadTool", "ShellTool"] : List String).length
        > 3 ∧
    (determine_execution_strategy
        ⟨.EXPLICIT_COMMAND, 1, some "file_operation", "show config.txt", false,
         "execute_immediately"⟩
        (some "read_file")
        ["FileReadTool", "FileWriterTool", "DirectoryReadTool", "ShellTool"]).estimated_complexity
      = "low" ∧
    (determine_execution_strategy
        ⟨.EXPLICIT_COMMAND, 1, some "file_operation", "show config.txt", false,
         "execute_immediately"⟩
        (some "read_file")
        ["FileReadTool", "FileWriterTool", "DirectoryReadTool", "ShellTool"]).estimated_complexity
      ≠ "high" :=
  ⟨by decide, rfl, by decide⟩

/-- C1 (amended): `_determine_execution_strategy` returns
estimated_complexity "medium" whenever task_type is "generate_code"
regardless of operation_type; and it returns "high" whenever the
selected tool count exceeds 3, provided neither of the two preceding
branches applies (that is, not (operation_type = file_operation and
task_type ∈ {read_file, create_single_file}), and not
(operation_type = code_operation or task_type = generate_code)). -/
theorem C1_complexity (cl : Classification) (taskType : Option String) (tools : List String) :
    (taskType = some "generate_code" →
      (determine_execution_strategy cl taskType tools).estimated_complexity = "medium") ∧
    (tools.length > 3 →
      ¬(cl.operation_type = some "file_operation" ∧
          (taskType = some "read_file" ∨ taskType = some "create_single_file")) →
      ¬(cl.operation_type = some "code_operation" ∨ taskType = some "generate_code") →
      (determine_execution_strategy cl taskType tools).estimated_complexity = "high") := by
  constructor
  · intro h
    rw [complexity_spec, if_neg (by simp [h]), if_pos (Or.inr h)]
  · intro hlen h1 h2
    rw [complexity_spec, if_neg h1, if_neg h2, if_pos (Or.inl hlen)]

/-- C1 (witness): the amended theorem applied at a concrete
classification, task type and tool list. -/
theorem C1_complexity_witness :
    (determine_execution_strategy
        ⟨.IMPLICIT_REQUEST, 1/2, none, "w", false, "confirm_with_preview"⟩
        (some "generate_code") []).estimated_complexity = "medium" ∧
    (determine_execution_strategy
        ⟨.IMPLICIT_REQUEST, 1/2, none, "w", false, "confirm_with_preview"⟩
        none ["a", "b", "c", "d"]).estimated_complexity = "high" :=
  ⟨(C1_complexity ⟨.IMPLICIT_REQUEST, 1/2, none, "w", false, "confirm_with_preview"⟩
      (some "generate_code") []).1 rfl,
   (C1_complexity ⟨.IMPLICIT_REQUEST, 1/2, none, "w", false, "confirm_with_preview"⟩
      none ["a", "b", "c", "d"]).2 (by decide) (by simp) (by simp)⟩

/-- C5: on every decision record, the orchestrator builds the
multi-agent shape exactly when estimated_complexity is "high" or
"medium" or task_type is "complex_search" or "analyze_code", and the
single-agent shape in every other case. -/
theorem C5_multi_agent_iff (d : Decision) :
    ((orchestration_shape d).orchestration_type = "multi_agent" ↔
      (d.execution_strategy.estimated_complexity = "high" ∨
       d.execution_strategy.estimated_complexity = "medium" ∨
       d.task_type = some "complex_search" ∨ d.task_type = some "analyze_code")) ∧
    ((orchestration_shape d).orchestration_type = "single_agent" ↔
      ¬(d.execution_strategy.estimated_complexity = "high" ∨
        d.execution_strategy.estimated_complexity = "medium" ∨
        d.task_type = some "complex_search" ∨ d.task_type = some "analyze_code")) := by
  unfold orchestration_shape
  split_ifs with h
  · exact ⟨⟨fun _ => h, fun _ => rfl⟩,
      ⟨fun hm => absurd hm (by decide), fun hn => absurd h hn⟩⟩
  · exact ⟨⟨fun hm => absurd hm (by decide), fun hp => absurd hp h⟩,
      ⟨fun _ => h, fun _ => rfl⟩⟩

/-- C6: `_assess_severity` classifies any error whose stringified
message contains "corrupt" as CRITICAL, for every exception kind — in
particular for ValueError, which the later kind rule would classify as
HIGH — because the critical keyword scan precedes the kind check. -/
theorem C6_corrupt_is_critical (kind msg : String) (h : pyIn "corrupt" msg = true) :
    assess_severity kind msg = .CRITICAL := by
  have hl : pyIn "corrupt" (pyLower msg) = true := by
    have hm := listContains_map Char.toLower ("corrupt".data) msg.data h
    have hfix : (("corrupt".data).map Char.toLower) = "corrupt".data := by decide
    rw [hfix] at hm
    exact hm
  have hc : (["system", "security", "breach", "corrupt"].any
      (fun k => pyIn k (pyLower msg))) = true := by
    rw [List.any_eq_true]
    exact ⟨"corrupt", by simp, hl⟩
  unfold assess_severity
  rw [if_pos hc]

/-- C6 (witness): a ValueError with message "metadata corrupt" is
classified CRITICAL, not HIGH. -/
theorem C6_corrupt_witness :
    pyIn "corrupt" "metadata corrupt" = true ∧
    assess_severity "ValueError" "metadata corrupt" = .CRITICAL :=
  ⟨by decide, C6_corrupt_is_critical "ValueError" "metadata corrupt" (by decide)⟩

/-- C2 (counterexample): for the input "Analyze the code in main.py
for bugs and refactor it" the pipeline does NOT produce operation_type
"code_operation" nor task_type "analyze_code": `.py` is a file
indicator and file indicators are checked before code indicators in
`_detect_operation_type`. -/
theorem C2_counterexample :
    (process_request "Analyze the code in main.py for bugs and refactor it").classification.operation_type
        ≠ some "code_operation" ∧
    (process_request "Analyze the code in main.py for bugs and refactor it").task_type
        ≠ some "analyze_code" :=
  ⟨by decide, by decide⟩

/-- C2 (amended): for the input "Analyze the code in main.py for bugs
and refactor it", the pipeline yields operation_type "file_operation"
(file indicators outrank code indicators in the detection priority
order, and ".py" is a file indicator), task_type None (no file-verb
keyword matches), a fallback tool selection of 5 tools, hence
estimated_complexity "high", and the Orchestrator selects the
"multi_agent" shape. -/
theorem C2_pipeline :
    (process_request "Analyze the code in main.py for bugs and refactor it").classification.operation_type
        = some "file_operation" ∧
    (process_request "Analyze the code in main.py for bugs and refactor it").task_type = none ∧
    (process_request "Analyze the code in main.py for bugs and refactor it").selected_tools.length
        = 5 ∧
    (process_request "Analyze the code in main.py for bugs and refactor it").execution_strategy.estimated_complexity
        = "high" ∧
    (orchestrate_task "Analyze the code in main.py for bugs and refactor it").orchestration_type
        = "multi_agent" :=
  ⟨rfl, rfl, rfl, rfl, rfl⟩

/-- C3: whenever `get_task_type_from_operation` resolves a task type,
`select_tools_for_task` returns a non-empty tool list (unknown task
types fall back to the comprehensive set; every task type the mapping
can return is in `TASK_TOOL_MAP` and resolves to a non-empty set). -/
theorem C3_tools_nonempty (operationType : Option String) (intent : String) (t : String)
    (h : get_task_type_from_operation operationType intent = some t) :
    select_tools_for_task t ≠ [] := by
  unfold get_task_type_from_operation taskTypeOfIntent at h
  split_ifs at h <;> simp only [Option.some.injEq] at h <;> subst h <;> decide

/-- C3 (witness): the resolved task type "read_file" has a non-empty
tool list. -/
theorem C3_tools_nonempty_witness :
    get_task_type_from_operation (some "file_operation") "read the file" = some "read_file" ∧
    select_tools_for_task "read_file" ≠ [] :=
  ⟨by decide,
   C3_tools_nonempty (some "file_operation") "read the file" "read_file" (by decide)⟩

/-- C4: the classification's routing field is the deterministic step
function of the confidence value alone, with thresholds checked by ≥ at
the boundaries: confidence ≥ 0.8 gives "execute_immediately",
0.5 ≤ confidence < 0.8 gives "confirm_with_preview", and
confidence < 0.5 gives "present_options_menu"; exactly at the
boundaries, 0.8 routes to "execute_immediately" and 0.5 to
"confirm_with_preview". -/
theorem C4_routing_step (s : String) (q : ℚ) :
    ((classify_input s).routing =
      (if (classify_input s).confidence ≥ 4/5 then "execute_immediately"
       else if (classify_input s).confidence ≥ 1/2 then "confirm_with_preview"
       else "present_options_menu")) ∧
    (determine_routing q =
      (if q ≥ 4/5 then "execute_immediately"
       else if q ≥ 1/2 then "confirm_with_preview"
       else "present_options_menu")) ∧
    determine_routing (4/5) = "execute_immediately" ∧
    determine_routing (1/2) = "confirm_with_preview" ∧
    determine_routing (3/10) = "present_options_menu" :=
  ⟨rfl, rfl, by norm_num [determine_routing], by norm_num [determine_routing],
   by norm_num [determine_routing]⟩

/-- C7: an input that (after lowercasing and stripping) does not start
with "/", matches no explicit pattern, no implicit pattern, and none of
the init/generate/fix/test keyword checks is classified AMBIGUOUS with
confidence exactly 0.3. -/
theorem C7_ambiguous_default (s : String)
    (hslash : pyStartsWith (pyStrip (pyLower s)) "/" = false)
    (hexp : ∀ ws ∈ EXPLICIT_PATTERNS, reSearch ws (pyStrip (pyLower s)) = false)
    (himp : ∀ ws ∈ IMPLICIT_PATTERNS, reSearch ws (pyStrip (pyLower s)) = false)
    (hkw : ∀ w ∈ (["init", "initialize", "setup", "create", "generate", "make", "new",
        "fix", "debug", "error", "bug", "test", "spec", "check"] : List String),
      pyIn w (pyStrip (pyLower s)) = false) :
    (classify_input s).intent = .AMBIGUOUS ∧ (classify_input s).confidence = 3/10 := by
  have hexp2 : EXPLICIT_PATTERNS.any (fun ws => reSearch ws (pyStrip (pyLower s))) = false := by
    rw [List.any_eq_false]
    intro ws hws
    simp [hexp ws hws]
  have himp2 : IMPLICIT_PATTERNS.any (fun ws => reSearch ws (pyStrip (pyLower s))) = false := by
    rw [List.any_eq_false]
    intro ws hws
    simp [himp ws hws]
  have hI0 : determine_intent (pyStrip (pyLower s)) (pyStartsWith (pyStrip (pyLower s)) "/")
      = .AMBIGUOUS := by
    rw [hslash]
    unfold determine_intent
    rw [if_neg (by simp), if_neg (by simp [hexp2]), if_neg (by simp [himp2]),
      if_neg (by simp [hkw "init" (by decide), hkw "initialize" (by decide),
        hkw "setup" (by decide)]),
      if_neg (by simp [List.any_cons, List.any_nil, hkw "create" (by decide),
        hkw "generate" (by decide), hkw "make" (by decide), hkw "new" (by decide)]),
      if_neg (by simp [List.any_cons, List.any_nil, hkw "fix" (by decide),
        hkw "debug" (by decide), hkw "error" (by decide), hkw "bug" (by decide)]),
      if_neg (by simp [List.any_cons, List.any_nil, hkw "test" (by decide),
        hkw "spec" (by decide), hkw "check" (by decide)])]
  refine ⟨hI0, ?_⟩
  show calculate_confidence (pyStrip (pyLower s))
      (determine_intent (pyStrip (pyLower s)) (pyStartsWith (pyStrip (pyLower s)) "/")) = 3/10
  rw [hI0]
  simp [calculate_confidence]

/-- C7 (witness): "hello world" matches nothing and is classified
AMBIGUOUS with confidence 0.3. -/
theorem C7_ambiguous_default_witness :
    (classify_input "hello world").intent = .AMBIGUOUS ∧
    (classify_input "hello world").confidence = 3/10 :=
  C7_ambiguous_default "hello world" (by decide) (by decide) (by decide) (by decide)

/-- C9: confidence is 1.0 exactly for EXPLICIT_COMMAND intents; every
other intent has confidence at most 0.6; routing
"execute_immediately" therefore occurs only for EXPLICIT_COMMAND; and
for every non-explicit intent the explicit-pattern match counter is 0,
so the `min(0.8, 0.6 + 0.1·e)` confidence branch is unreachable. -/
theorem C9_explicit_confidence (s : String) :
    ((classify_input s).confidence = 1 ↔ (classify_input s).intent = .EXPLICIT_COMMAND) ∧
    ((classify_input s).intent ≠ .EXPLICIT_COMMAND → (classify_input s).confidence ≤ 3/5) ∧
    ((classify_input s).routing = "execute_immediately" →
      (classify_input s).intent = .EXPLICIT_COMMAND) ∧
    ((classify_input s).intent ≠ .EXPLICIT_COMMAND →
      EXPLICIT_PATTERNS.countP (fun ws => reSearch ws (pyStrip (pyLower s))) = 0) := by
  by_cases hI : determine_intent (pyStrip (pyLower s)) (pyStartsWith (pyStrip (pyLower s)) "/")
      = .EXPLICIT_COMMAND
  · have hc : (classify_input s).confidence = 1 := by
      show calculate_confidence (pyStrip (pyLower s))
        (determine_intent (pyStrip (pyLower s)) (pyStartsWith (pyStrip (pyLower s)) "/")) = 1
      rw [hI]
      simp [calculate_confidence]
    exact ⟨⟨fun _ => hI, fun _ => hc⟩, fun hne => absurd hI hne, fun _ => hI,
      fun hne => absurd hI hne⟩
  · have he : EXPLICIT_PATTERNS.countP (fun ws => reSearch ws (pyStrip (pyLower s))) = 0 :=
      explicit_countP_zero _ _ hI
    have hle0 : calculate_confidence (pyStrip (pyLower s))
        (determine_intent (pyStrip (pyLower s)) (pyStartsWith (pyStrip (pyLower s)) "/"))
        ≤ 3/5 :=
      confidence_le_of_not_explicit _ _ hI he
    have hne1 : ¬(calculate_confidence (pyStrip (pyLower s))
        (determine_intent (pyStrip (pyLower s)) (pyStartsWith (pyStrip (pyLower s)) "/"))
        = 1) := by
      intro h
      rw [h] at hle0
      norm_num at hle0
    have hroute : ¬(determine_routing (calculate_confidence (pyStrip (pyLower s))
        (determine_intent (pyStrip (pyLower s)) (pyStartsWith (pyStrip (pyLower s)) "/")))
        = "execute_immediately") := by
      unfold determine_routing
      rw [if_neg (by intro hge; linarith)]
      split_ifs <;> decide
    exact ⟨⟨fun h => absurd h hne1, fun h => absurd h hI⟩, fun _ => hle0,
      fun h => absurd h hroute, fun _ => he⟩

/-- C9 (witness): the theorem applied at the non-explicit input
"hello world". -/
theorem C9_explicit_confidence_witness :
    (classify_input "hello world").confidence ≤ 3/5 ∧
    EXPLICIT_PATTERNS.countP (fun ws => reSearch ws (pyStrip (pyLower "hello world"))) = 0 :=
  ⟨(C9_explicit_confidence "hello world").2.1 (by decide),
   (C9_explicit_confidence "hello world").2.2.2 (by decide)⟩

/-- C10: `requires_clarification` is exactly `confidence < 0.4`, a
threshold distinct from the Decision Engine's `needs_clarification`
threshold `confidence < 0.5`; and over the attainable confidence
values, `requires_clarification` holds exactly for AMBIGUOUS intents. -/
theorem C10_clarification_threshold (s : String) :
    ((classify_input s).requires_clarification = decide ((classify_input s).confidence < 2/5)) ∧
    ((process_request s).execution_strategy.needs_clarification
        = decide ((classify_input s).confidence < 1/2)) ∧
    ((classify_input s).requires_clarification = true ↔
      (classify_input s).intent = .AMBIGUOUS) := by
  refine ⟨rfl, rfl, ?_, ?_⟩
  · intro h
    have hlt : calculate_confidence (pyStrip (pyLower s))
        (determine_intent (pyStrip (pyLower s)) (pyStartsWith (pyStrip (pyLower s)) "/"))
        < 2/5 := of_decide_eq_true h
    by_cases hE : determine_intent (pyStrip (pyLower s))
        (pyStartsWith (pyStrip (pyLower s)) "/") = .EXPLICIT_COMMAND
    · rw [hE] at hlt
      simp [calculate_confidence] at hlt
      norm_num at hlt
    · by_cases hA : determine_intent (pyStrip (pyLower s))
          (pyStartsWith (pyStrip (pyLower s)) "/") = .AMBIGUOUS
      · exact hA
      · have hge := confidence_ge_half (pyStrip (pyLower s)) _ hE hA
          (explicit_countP_zero _ _ hE)
        linarith
  · intro hA
    have hA0 : determine_intent (pyStrip (pyLower s))
        (pyStartsWith (pyStrip (pyLower s)) "/") = .AMBIGUOUS := hA
    show decide (calculate_confidence (pyStrip (pyLower s))
      (determine_intent (pyStrip (pyLower s)) (pyStartsWith (pyStrip (pyLower s)) "/"))
      < 2/5) = true
    rw [hA0]
    rw [decide_eq_true_eq]
    simp only [calculate_confidence]
    rw [if_neg (by decide)]
    norm_num

/-- The character data of an appended string is the appended data. -/
theorem string_data_append (s t : String) : (s ++ t).data = s.data ++ t.data := by
  cases s
  cases t
  rfl

/-- Newline count distributes over string append. -/
theorem lineCount_append (s t : String) :
    lineCount (s ++ t) = lineCount s + lineCount t := by
  unfold lineCount
  rw [string_data_append, List.count_append]

/-- A `" | "`-join of newline-free cells is newline-free. -/
theorem lineCount_joinCells (cells : List String)
    (h : ∀ c ∈ cells, lineCount c = 0) : lineCount (joinCells cells) = 0 := by
  induction cells with
  | nil => decide
  | cons c cs ih =>
    cases cs with
    | nil => exact h c (by simp)
    | cons d ds =>
      simp only [joinCells]
      rw [lineCount_append, lineCount_append, h c (by simp),
        ih (fun x hx => h x (List.mem_cons_of_mem _ hx))]
      decide

/-- An emitted table line over newline-free cells has exactly one
newline. -/
theorem lineCount_tableLine (cells : List String)
    (h : ∀ c ∈ cells, lineCount c = 0) : lineCount (tableLine cells) = 1 := by
  unfold tableLine
  rw [lineCount_append, lineCount_append, lineCount_joinCells cells h]
  decide

/-- Newline count of an accumulated list of strings is the sum of the
newline counts. -/
theorem lineCount_concatLines (l : List String) :
    lineCount (concatLines l) = (l.map lineCount).sum := by
  induction l with
  | nil => decide
  | cons s rest ih =>
    simp only [concatLines, List.map_cons, List.sum_cons]
    rw [lineCount_append, ih]

/-- A value looked up in a dict whose values are newline-free is
newline-free (missing keys default to the empty string). -/
theorem lineCount_dictGet (row : List (String × String)) (k : String)
    (h : ∀ p ∈ row, lineCount p.2 = 0) : lineCount (dictGet row k) = 0 := by
  induction row with
  | nil => rfl
  | cons p ps ih =>
    obtain ⟨k1, v1⟩ := p
    simp only [dictGet, List.lookup]
    split
    · simpa using h (k1, v1) (by simp)
    · exact ih (fun q hq => h q (List.mem_cons_of_mem _ hq))

/-- The emitted data-row block over newline-free values contributes one
newline per row. -/
theorem lineCount_rowBlock (headers : List String) (rows : List (List (String × String)))
    (hv : ∀ row ∈ rows, ∀ p ∈ row, lineCount p.2 = 0) :
    lineCount (concatLines (rows.map (fun row =>
        tableLine (headers.map (fun h => dictGet row h))))) = rows.length := by
  rw [lineCount_concatLines]
  induction rows with
  | nil => rfl
  | cons r rs ih =>
    simp only [List.map_cons, List.sum_cons, List.length_cons]
    rw [lineCount_tableLine, ih (fun row hrow => hv row (List.mem_cons_of_mem _ hrow))]
    · omega
    · intro c hc
      rcases List.mem_map.mp hc with ⟨hk, hhk, rfl⟩
      exact lineCount_dictGet r hk (hv r (by simp))

/-- C8 (counterexample): the claim "formatting a non-empty list of
uniform-key dict records always produces rows+2 lines" fails when a
cell value itself contains a newline: the single record
`[("a", "x\ny")]` produces 4 text lines, not 1+2 = 3. -/
theorem C8_counterexample :
    lineCount (format_table [[("a", "x\ny")]]) = 4 ∧
    lineCount (format_table [[("a", "x\ny")]]) ≠ 1 + 2 := by
  constructor
  · rfl
  · decide

/-- C8 (amended): for every non-empty list of dict records sharing the
same keys, whose keys and values are free of newline characters,
formatting as a table produces min(rows, 20) + 2 lines — one header
line, one separator line, and at most 20 data rows — silently
truncating the records beyond the 20th. -/
theorem C8_table_line_count (first : List (String × String))
    (rest : List (List (String × String)))
    (hkeys : ∀ p ∈ first, lineCount p.1 = 0)
    (huniform : ∀ row ∈ rest, row.map Prod.fst = first.map Prod.fst)
    (hvals : ∀ row ∈ first :: rest, ∀ p ∈ row, lineCount p.2 = 0) :
    lineCount (format_table (first :: rest)) = min (first :: rest).length 20 + 2 := by
  have hh : ∀ c ∈ first.map Prod.fst, lineCount c = 0 := by
    intro c hc
    rcases List.mem_map.mp hc with ⟨p, hp, rfl⟩
    exact hkeys p hp
  have hsep : ∀ c ∈ (first.map Prod.fst).map (fun _ => "---"), lineCount c = 0 := by
    intro c hc
    rcases List.mem_map.mp hc with ⟨p, hp, rfl⟩
    decide
  simp only [format_table]
  rw [lineCount_append, lineCount_append, lineCount_tableLine _ hh,
    lineCount_tableLine _ hsep,
    lineCount_rowBlock (first.map Prod.fst) ((first :: rest).take 20)
      (fun row hrow => hvals row (List.take_subset _ _ hrow)),
    List.length_take]
  omega

/-- C8 (witness): two one-column records format to 4 = min(2,20)+2
lines. -/
theorem C8_table_line_count_witness :
    lineCount (format_table [[("a", "1")], [("a", "2")]]) = 4 :=
  C8_table_line_count [("a", "1")] [[("a", "2")]] (by decide) (by decide) (by decide)

end MyDeskAI
